import Mathlib

/-!
# Verification of the evalkit multi-stage evaluation core

Shallow embedding of the cost-tiered evaluation pipeline of
`backend/app/core` (pipeline.py, deterministic.py, router.py,
gate_policy.py, autofix.py), the cost/token accounting of
`backend/app/utils` (cost.py), and the cache-key derivation of
`backend/app/utils/cache_key.py`.

Conventions of the embedding:
* Python floats and `Decimal` values are modelled as `ℚ` (the literals in
  the source are all exact decimals, and the `Decimal` arithmetic used is
  exact division/multiplication by powers of ten).
* Token counting (`TokenCounter.count`, a tiktoken call) is an external
  library; every function that counts tokens is parametrised by an
  abstract counter `tc : String → ℕ`.  The source returns 0 on the empty
  string and a positive count on non-empty text; concrete instantiations
  below use the documented fallback estimator `len(text) / 4`.
* Python `str.strip()` is modelled by `pyStrip` (drop whitespace at both
  ends of the character list).
* Dictionaries with a fixed key set (`metrics`, `canonical.metadata`) are
  modelled as structures of `Option` fields; `d.get(k, v)` becomes
  `field.getD v`.
-/

namespace Evalkit

/-- Python `str.strip()`: remove leading and trailing whitespace. -/
def pyStrip (s : String) : String :=
  ⟨((s.data.dropWhile Char.isWhitespace).reverse.dropWhile Char.isWhitespace).reverse⟩

/-- Length (in characters) of a string, Python `len`. -/
def pyLen (s : String) : ℕ := s.data.length

/-- An issue emitted by the Stage-1 deterministic checks
(`{"code": ..., "severity": ..., "message": ...}`). -/
structure Issue where
  code : String
  severity : String
  message : String
deriving DecidableEq, Repr

/-- The metrics mapping.  Keys that appear in the source are modelled as
optional fields; a missing key is `none`.  `total_tokens` is an integer
in the source, the remaining values are floats. -/
structure Metrics where
  faithfulness : Option ℚ := none
  answer_relevancy : Option ℚ := none
  context_precision : Option ℚ := none
  context_recall : Option ℚ := none
  hallucination_score : Option ℚ := none
  response_latency_ms : Option ℚ := none
  retrieval_latency_ms : Option ℚ := none
  generation_latency_ms : Option ℚ := none
  cost_per_query : Option ℚ := none
  total_tokens : Option ℕ := none
deriving DecidableEq, Repr

/-- `ContextChunk` (schemas/canonical.py): rich context representation.
`metadata` is a string-keyed mapping; only string values occur in the
claims, so it is modelled as an association list. -/
structure ContextChunk where
  text : String
  source_id : Option String := none
  rank : Option Int := none
  score : Option ℚ := none
  metadata : List (String × String) := []
deriving DecidableEq, Repr

/-- The `metadata` mapping of a `CanonicalEvaluation`, restricted to the
keys the core reads (`model`, `chunk_size`, `top_k`, `reranker`,
`embedding_model`).  A missing key is `none`; `reranker` is read for
truthiness only, so it is a `Bool` defaulting to `false`. -/
structure EvalMetadata where
  model : Option String := none
  chunk_size : Option ℚ := none
  top_k : Option Int := none
  reranker : Bool := false
  embedding_model : Option String := none
deriving DecidableEq, Repr

/-- `CanonicalEvaluation` (schemas/canonical.py), restricted to the fields
the core pipeline reads. -/
structure CanonicalEvaluation where
  query : String
  response : String
  context_chunks : List ContextChunk
  metadata : EvalMetadata := {}
  total_latency_ms : Option ℚ := none
  retrieval_latency_ms : Option ℚ := none
  generation_latency_ms : Option ℚ := none
deriving DecidableEq, Repr

/-- The `PRICING` table of utils/cost.py: per-million-token input/output
prices.  Unknown models fall back to the `gpt-4o-mini` entry. -/
def pricing (model : String) : ℚ × ℚ :=
  if model = "gpt-4o" then ((2.50 : ℚ), (10.00 : ℚ))
  else if model = "gpt-4o-mini" then ((0.15 : ℚ), (0.60 : ℚ))
  else if model = "gpt-4-turbo" then ((10.00 : ℚ), (30.00 : ℚ))
  else if model = "claude-sonnet-4-20250514" then ((3.00 : ℚ), (15.00 : ℚ))
  else if model = "claude-3-5-haiku-20241022" then ((1.00 : ℚ), (5.00 : ℚ))
  else ((0.15 : ℚ), (0.60 : ℚ))

/-- `CostCalculator.calculate` (utils/cost.py):
`input/1e6 * price_in + output/1e6 * price_out`. -/
def costCalculate (model : String) (input_tokens output_tokens : ℕ) : ℚ :=
  (input_tokens : ℚ) / 1000000 * (pricing model).1 +
    (output_tokens : ℚ) / 1000000 * (pricing model).2

/-- Total token count of an evaluation:
`tc(query) + Σ tc(chunk.text) + tc(response)` (pipeline.py and
deterministic.py compute this identically, with `tc` the abstract token
counter). -/
def totalTokens (tc : String → ℕ) (c : CanonicalEvaluation) : ℕ :=
  tc c.query + (c.context_chunks.map (fun ch => tc ch.text)).sum + tc c.response

/-- `DeterministicResult` (pipeline.py / deterministic.py). -/
structure DeterministicResult where
  issues : List Issue
  metrics : Metrics
  confidence : ℚ
deriving DecidableEq, Repr

/-- `DeterministicResult.has_p0_failures`. -/
def DeterministicResult.has_p0_failures (d : DeterministicResult) : Bool :=
  d.issues.any (fun issue => issue.severity == "P0")

/-- The `EMPTY_ANSWER` trigger of Stage 1:
`not canonical.response or len(canonical.response.strip()) < 10`. -/
def emptyAnswerTrigger (c : CanonicalEvaluation) : Prop :=
  c.response = "" ∨ pyLen (pyStrip c.response) < 10

/-- The `NO_CONTEXT` trigger of Stage 1: `not canonical.context_chunks or
all(len(chunk.text.strip()) < 10 for chunk in canonical.context_chunks)`. -/
def noContextTrigger (c : CanonicalEvaluation) : Prop :=
  c.context_chunks = [] ∨ ∀ ch ∈ c.context_chunks, pyLen (pyStrip ch.text) < 10

instance (c : CanonicalEvaluation) : Decidable (emptyAnswerTrigger c) := by
  unfold emptyAnswerTrigger; infer_instance

instance (c : CanonicalEvaluation) : Decidable (noContextTrigger c) := by
  unfold noContextTrigger; infer_instance

/-- The issue list produced by Stage 1, shared verbatim by
`MultiStageEvaluationPipeline.stage_1_deterministic` and
`DeterministicChecker.check` except for the token-limit message text
(`"128K"` in pipeline.py, `"128000"` in deterministic.py), which is
passed in as `limitText`. -/
def stage1Issues (tc : String → ℕ) (limitText : String) (c : CanonicalEvaluation) :
    List Issue :=
  (if emptyAnswerTrigger c then
    [{ code := "EMPTY_ANSWER", severity := "P0",
       message := "Response is empty or too short (<10 chars)" }] else []) ++
  (if noContextTrigger c then
    [{ code := "NO_CONTEXT", severity := "P0",
       message := "No valid context chunks provided" }] else []) ++
  (if 128000 < totalTokens tc c then
    [{ code := "TOKEN_LIMIT_EXCEEDED", severity := "P1",
       message := "Total tokens (" ++ Nat.repr (totalTokens tc c) ++ ") exceeds " ++
         limitText ++ " limit" }] else [])

/-- `MultiStageEvaluationPipeline.stage_1_deterministic` (pipeline.py lines
82-134).  Besides the issues it computes latency/token/cost metrics; the
Stage-1 confidence is `0.3 if issues else 0.6`. -/
def stage_1_deterministic (tc : String → ℕ) (c : CanonicalEvaluation) :
    DeterministicResult :=
  let issues := stage1Issues tc "128K" c
  let total_tokens := totalTokens tc c
  let model := c.metadata.model.getD "gpt-4o"
  let response_tokens := tc c.response
  let cost := costCalculate model (total_tokens - response_tokens) response_tokens
  { issues := issues
    metrics :=
      { response_latency_ms := some (c.total_latency_ms.getD 0)
        total_tokens := some total_tokens
        cost_per_query := some cost }
    confidence := if issues = [] then (0.6 : ℚ) else (0.3 : ℚ) }

/-- `DeterministicChecker.check` (deterministic.py lines 38-92).  Same
issue triggers as `stage_1_deterministic`; metrics keep the token total
and the three latency fields; confidence is 1.0 with a P0 issue, 0.5 with
only non-P0 issues, 0.6 with no issue. -/
def DeterministicChecker.check (tc : String → ℕ) (c : CanonicalEvaluation) :
    DeterministicResult :=
  let issues := stage1Issues tc "128000" c
  { issues := issues
    metrics :=
      { total_tokens := some (totalTokens tc c)
        response_latency_ms := some (c.total_latency_ms.getD 0)
        retrieval_latency_ms := c.retrieval_latency_ms
        generation_latency_ms := c.generation_latency_ms }
    confidence :=
      if issues.any (fun i => i.severity == "P0") then (1.0 : ℚ)
      else if issues = [] then (0.6 : ℚ) else (0.5 : ℚ) }

/-- The four quality scores read with default 0.5, in source order
(`router.py` `_has_metric_disagreement` / `calculate_confidence`,
`pipeline.py` `_calculate_confidence` — all three build this list). -/
def metricScores (m : Metrics) : List ℚ :=
  [m.faithfulness.getD 0.5, m.answer_relevancy.getD 0.5,
   m.context_precision.getD 0.5, m.context_recall.getD 0.5]

/-- `mean = sum(scores) / len(scores)`. -/
def metricMean (m : Metrics) : ℚ := (metricScores m).sum / 4

/-- `variance = sum((s - mean) ** 2 for s in scores) / len(scores)`. -/
def metricVariance (m : Metrics) : ℚ :=
  ((metricScores m).map (fun s => (s - metricMean m) ^ 2)).sum / 4

/-- `RoutingDecision` (router.py). -/
structure RoutingDecision where
  should_escalate : Bool
  reason : String
  confidence : ℚ
deriving DecidableEq, Repr

/-- `ConfidenceRouter._has_metric_disagreement` (router.py lines 94-114):
variance of the four scores strictly above 0.15.  (The `if not scores`
guard in the source is dead: the list always has four elements.) -/
def hasMetricDisagreement (m : Metrics) : Bool :=
  decide (metricVariance m > (0.15 : ℚ))

/-- `ConfidenceRouter.should_escalate` (router.py lines 32-92); `thr` is
the router's `confidence_threshold` (default 0.80). -/
def should_escalate (thr : ℚ) (m : Metrics) (current_stage : String)
    (confidence : ℚ) : RoutingDecision :=
  if current_stage = "deterministic" then
    if thr ≤ confidence then
      { should_escalate := false,
        reason := "High confidence from deterministic checks",
        confidence := confidence }
    else
      { should_escalate := true,
        reason := "Low confidence, escalating to small model",
        confidence := confidence }
  else if current_stage = "small_model" then
    if thr ≤ confidence then
      { should_escalate := false,
        reason := "High confidence from small model",
        confidence := confidence }
    else if hasMetricDisagreement m then
      { should_escalate := true,
        reason := "Metric disagreement detected, escalating to large model",
        confidence := confidence }
    else
      { should_escalate := true,
        reason := "Low confidence, escalating to large model",
        confidence := confidence }
  else
    { should_escalate := false, reason := "Final stage reached", confidence := 1 }

/-- `ConfidenceRouter.calculate_confidence` (router.py lines 116-151):
variance bands 0.9 / 0.8 / 0.7 / 0.5, then a +0.1 boost capped at 1.0
when the mean is above 0.9 or below 0.3. -/
def calculate_confidence (m : Metrics) : ℚ :=
  let confidence :=
    if metricVariance m < (0.05 : ℚ) then (0.9 : ℚ)
    else if metricVariance m < (0.10 : ℚ) then (0.8 : ℚ)
    else if metricVariance m < (0.15 : ℚ) then (0.7 : ℚ)
    else (0.5 : ℚ)
  if metricMean m > (0.9 : ℚ) ∨ metricMean m < (0.3 : ℚ) then
    min 1 (confidence + 0.1)
  else confidence

/-- The confidence function as worded by the spec (§4.6): variance bands
`<0.05→0.9`, `<0.10→0.8`, `<0.15→0.7`, else `0.5`, then a +0.1 boost
capped at 1.0 when the mean of the four metrics is `>0.9` or `<0.3`.
Written from the spec's words, to be compared with the two source
implementations. -/
def specCalculateConfidence (m : Metrics) : ℚ :=
  let banded : ℚ :=
    if metricVariance m < (0.05 : ℚ) then 0.9
    else if metricVariance m < (0.10 : ℚ) then 0.8
    else if metricVariance m < (0.15 : ℚ) then 0.7
    else 0.5
  if metricMean m > (0.9 : ℚ) ∨ metricMean m < (0.3 : ℚ) then
    min (banded + 0.1) 1
  else banded

/-- `MultiStageEvaluationPipeline._calculate_confidence` (pipeline.py
lines 179-194): bands 0.9 / 0.7 / 0.4 only, no boost. -/
def pipeline_calculate_confidence (m : Metrics) : ℚ :=
  if metricVariance m < (0.05 : ℚ) then (0.9 : ℚ)
  else if metricVariance m < (0.15 : ℚ) then (0.7 : ℚ)
  else (0.4 : ℚ)

/-- `ModelResult` (pipeline.py). -/
structure ModelResult where
  metrics : Metrics
  confidence : ℚ
  cost : ℚ
deriving DecidableEq, Repr

/-- `MultiStageEvaluationPipeline._run_ragas` (pipeline.py lines 168-174):
the stubbed judge backend returns these constants for every input. -/
def runRagas : Metrics :=
  { faithfulness := some 0.85, answer_relevancy := some 0.82,
    context_precision := some 0.78, context_recall := some 0.75 }

/-- `MultiStageEvaluationPipeline._calculate_stage_cost` (pipeline.py
lines 196-202): full token total as input tokens, 500 output tokens. -/
def calculate_stage_cost (tc : String → ℕ) (c : CanonicalEvaluation)
    (model : String) : ℚ :=
  costCalculate model (totalTokens tc c) 500

/-- `MultiStageEvaluationPipeline.stage_2_small_model` (pipeline.py lines
136-153): ragas metrics plus a hallucination score of 0.12, confidence
from `_calculate_confidence`. -/
def stage_2_small_model (tc : String → ℕ) (c : CanonicalEvaluation)
    (small_model : String) : ModelResult :=
  let metrics := { runRagas with hallucination_score := some 0.12 }
  { metrics := metrics
    confidence := pipeline_calculate_confidence metrics
    cost := calculate_stage_cost tc c small_model }

/-- `MultiStageEvaluationPipeline.stage_3_large_model` (pipeline.py lines
155-166): confidence is forced to 1.0. -/
def stage_3_large_model (tc : String → ℕ) (c : CanonicalEvaluation)
    (large_model : String) : ModelResult :=
  let metrics := { runRagas with hallucination_score := some 0.12 }
  { metrics := metrics
    confidence := 1
    cost := calculate_stage_cost tc c large_model }

/-- The result dictionary of `_build_result` (pipeline.py lines 204-235). -/
structure PipelineResult where
  stage : String
  metrics : Metrics
  issues : List Issue
  confidence : ℚ
  total_cost : ℚ
  tokens_used : ℕ
deriving DecidableEq, Repr

/-- `MultiStageEvaluationPipeline._build_result` (pipeline.py lines
204-235).  The metrics of the most expensive executed stage are taken as
base and overlaid with Stage-1 `response_latency_ms` / `cost_per_query`;
`total_cost` adds the per-stage costs of the executed stages;
`tokens_used` is Stage 1's `total_tokens`.  (In the source a `large`
without a `small` would raise; `evaluate` never produces it, and the
embedding bills a missing `small` as zero there.) -/
def build_result (deterministic : DeterministicResult) (stage : String)
    (small large : Option ModelResult) (confidence : ℚ) : PipelineResult :=
  let detCost := deterministic.metrics.cost_per_query.getD 0
  let base : Metrics × ℚ :=
    match large, small with
    | some l, some s => (l.metrics, detCost + s.cost + l.cost)
    | some l, none => (l.metrics, detCost + l.cost)
    | none, some s => (s.metrics, detCost + s.cost)
    | none, none => (deterministic.metrics, detCost)
  { stage := stage
    metrics :=
      { base.1 with
        response_latency_ms := deterministic.metrics.response_latency_ms
        cost_per_query := deterministic.metrics.cost_per_query }
    issues := deterministic.issues
    confidence := confidence
    total_cost := base.2
    tokens_used := deterministic.metrics.total_tokens.getD 0 }

/-- `MultiStageEvaluationPipeline.evaluate` (pipeline.py lines 41-80),
parametrised by the token counter, the confidence threshold (settings
default 0.80) and the two judge model names (settings defaults
`gpt-4o-mini` / `gpt-4o`). -/
def evaluate (tc : String → ℕ) (thr : ℚ) (small_model large_model : String)
    (c : CanonicalEvaluation) : PipelineResult :=
  let deterministic := stage_1_deterministic tc c
  if deterministic.has_p0_failures then
    build_result deterministic "deterministic" none none 1
  else if thr ≤ deterministic.confidence then
    build_result deterministic "deterministic" none none deterministic.confidence
  else
    let small := stage_2_small_model tc c small_model
    if thr ≤ small.confidence then
      build_result deterministic "small_model" (some small) none small.confidence
    else
      let large := stage_3_large_model tc c large_model
      build_result deterministic "large_model" (some small) (some large) 1

/-- The documented fallback token estimator (`len(text) / 4`, spec §4.2),
used to instantiate the abstract counter on concrete inputs. -/
def tcFallback (s : String) : ℕ := pyLen s / 4

/-- `GatePolicy` thresholds (models/models.py): decimal thresholds plus an
integer latency ceiling. -/
structure GatePolicy where
  min_faithfulness : ℚ
  min_context_recall : ℚ
  min_context_precision : ℚ
  max_hallucination : ℚ
  max_latency_ms : ℚ
  max_cost_per_query : ℚ
deriving DecidableEq, Repr

/-- The severity order of `GatePolicyEngine._upgrade_severity`:
`{"P0": 0, "P1": 1, "P2": 2, "P3": 3}` with `.get(s, 3)` for unknown
strings.  Smaller rank = more critical. -/
def severityRank (s : String) : ℕ :=
  if s = "P0" then 0 else if s = "P1" then 1 else if s = "P2" then 2 else 3

/-- `GatePolicyEngine._upgrade_severity` (gate_policy.py lines 112-117):
keep the more critical of the two severities. -/
def upgrade_severity (current new : String) : String :=
  if severityRank new < severityRank current then new else current

/-- The sequence of `(failure_code, severity)` pairs absorbed by
`GatePolicyEngine.evaluate` (gate_policy.py lines 40-98), in source
order: first every Stage-1 issue, then — when a policy is present — the
six threshold checks (faithfulness, recall, precision, hallucination,
latency, cost).  A check whose metric key is absent contributes nothing. -/
def gateEvents (m : Metrics) (policy : Option GatePolicy) (issues : List Issue) :
    List (String × String) :=
  issues.map (fun issue => (issue.code, issue.severity)) ++
  match policy with
  | none => []
  | some p =>
    (match m.faithfulness with
     | some f =>
       if f < p.min_faithfulness then
         [("LOW_FAITHFULNESS", if f < (0.5 : ℚ) then "P1" else "P2")]
       else []
     | none => []) ++
    (match m.context_recall with
     | some r =>
       if r < p.min_context_recall then [("LOW_RECALL", "P2")] else []
     | none => []) ++
    (match m.context_precision with
     | some r =>
       if r < p.min_context_precision then [("LOW_PRECISION", "P2")] else []
     | none => []) ++
    (match m.hallucination_score with
     | some h =>
       if p.max_hallucination < h then
         [("HALLUCINATION", if (0.4 : ℚ) < h then "P1" else "P2")]
       else []
     | none => []) ++
    (match m.response_latency_ms with
     | some l =>
       if p.max_latency_ms < l then [("TOO_SLOW", "P2")] else []
     | none => []) ++
    (match m.cost_per_query with
     | some ct =>
       if p.max_cost_per_query < ct then [("TOO_EXPENSIVE", "P2")] else []
     | none => [])

/-- The `(decision, severity, failure_codes)` triple returned by
`GatePolicyEngine.evaluate`. -/
structure GateResult where
  decision : String
  severity : String
  failure_codes : List String
deriving DecidableEq, Repr

/-- `GatePolicyEngine.evaluate` (gate_policy.py lines 29-110): absorb the
issue severities and threshold breaches in order (appending each failure
code and upgrading the severity, starting from `"P3"`), then derive the
decision: `P0`/`P1` → fail, else non-empty codes → warn, else pass. -/
def GatePolicyEngine.evaluate (m : Metrics) (policy : Option GatePolicy)
    (issues : List Issue) : GateResult :=
  let events := gateEvents m policy issues
  let failure_codes := events.map Prod.fst
  let severity := events.foldl (fun s e => upgrade_severity s e.2) "P3"
  let decision :=
    if severity = "P0" then "fail"
    else if severity = "P1" then "fail"
    else if failure_codes ≠ [] then "warn"
    else "pass"
  { decision := decision, severity := severity, failure_codes := failure_codes }

/-- An autofix rule (autofix.py): name, priority and the pure `applies`
predicate.  (The recommendation payload built by the rule's generator is
elided; `analyze` keeps the `rule_name` attached to each recommendation,
which is what identifies it.)  The source wraps `condition` in
`try/except`; the embedded conditions are total, so the guard is inert. -/
structure AutoFixRule where
  name : String
  priority : ℕ
  condition : CanonicalEvaluation → Metrics → Bool

/-- Python truthiness of an optional float (`if ch.score`): present and
non-zero. -/
def truthyScore (score : Option ℚ) : Bool :=
  match score with
  | some s => decide (s ≠ 0)
  | none => false

/-- The chunks whose `score` is truthy:
`[ch for ch in c.context_chunks if ch.score]`. -/
def scoredChunks (c : CanonicalEvaluation) : List ContextChunk :=
  c.context_chunks.filter (fun ch => truthyScore ch.score)

/-- `AutoFixEngine._init_rules` (autofix.py lines 27-126), in source
order.  Conditions are verbatim translations:
* `chunk_size_too_small` (10): `m.get("faithfulness", 1.0) < 0.6 and
  c.metadata.get("chunk_size", 512) < 200`;
* `low_context_recall` (8): `m.get("context_recall", 1.0) < 0.5 and
  c.metadata.get("top_k", 5) <= 3`;
* `low_retrieval_scores` (9): at least one chunk with truthy score, and
  the mean score of those chunks below 0.5;
* `high_hallucination` (10): `m.get("hallucination_score", 0.0) > 0.3 and
  not c.metadata.get("reranker")`;
* `cost_too_high` (5): `m.get("cost_per_query", 0.0) > 0.01 and
  c.metadata.get("model", "").startswith("gpt-4")`. -/
def autoFixRules : List AutoFixRule :=
  [{ name := "chunk_size_too_small", priority := 10,
     condition := fun c m =>
       decide (m.faithfulness.getD 1 < (0.6 : ℚ)) &&
         decide (c.metadata.chunk_size.getD 512 < (200 : ℚ)) },
   { name := "low_context_recall", priority := 8,
     condition := fun c m =>
       decide (m.context_recall.getD 1 < (0.5 : ℚ)) &&
         decide (c.metadata.top_k.getD 5 ≤ (3 : ℤ)) },
   { name := "low_retrieval_scores", priority := 9,
     condition := fun c _ =>
       decide (0 < (scoredChunks c).length) &&
         decide (((scoredChunks c).map (fun ch => ch.score.getD 0)).sum /
           ((scoredChunks c).length : ℚ) < (0.5 : ℚ)) },
   { name := "high_hallucination", priority := 10,
     condition := fun c m =>
       decide ((0.3 : ℚ) < m.hallucination_score.getD 0) && !c.metadata.reranker },
   { name := "cost_too_high", priority := 5,
     condition := fun c m =>
       decide ((0.01 : ℚ) < m.cost_per_query.getD 0) &&
         (c.metadata.model.getD "").startsWith "gpt-4" }]

/-- `AutoFixEngine.analyze` (autofix.py lines 128-141): walk the rules in
descending priority (Python's `sorted` is stable, as is `mergeSort`), and
collect the name of every rule whose condition holds. -/
def AutoFixEngine.analyze (c : CanonicalEvaluation) (m : Metrics) : List String :=
  ((autoFixRules.mergeSort (fun a b => b.priority ≤ a.priority)).filter
    (fun rule => rule.condition c m)).map (fun rule => rule.name)

/-- The data dictionary hashed by `generate_cache_key`
(utils/cache_key.py lines 17-21): the query, the full `model_dump()` of
every context chunk in their given order (all chunk fields, the per-chunk
`metadata` mapping included), and the response. -/
structure CacheData where
  query : String
  context_chunks : List ContextChunk
  response : String
deriving DecidableEq, Repr

/-- `generate_cache_key` (utils/cache_key.py lines 7-28), parametrised by
`digest : CacheData → String` standing for
`sha256(json.dumps(data, sort_keys=True, default=str)).hexdigest()` —
an external, deterministic serialization-plus-hash (spec §4.9: a stable,
order-preserving serialization under a cryptographic digest; its
collision-freeness on distinct payloads is the injectivity of `digest`).
`policy_version` is the (positive) integer policy version.  Returns
`(cache_key, input_hash, cache_namespace)`. -/
def generate_cache_key (digest : CacheData → String) (query : String)
    (context_chunks : List ContextChunk) (response : String)
    (policy_version : ℕ) (judge_model evaluator_version : String) :
    String × String × String :=
  let cache_namespace :=
    "schema_v1|eval_v" ++ evaluator_version ++ "|policy_" ++
      Nat.repr policy_version ++ "|judge_" ++ judge_model
  let input_hash :=
    digest { query := query, context_chunks := context_chunks,
             response := response }
  ("eval:" ++ cache_namespace ++ ":" ++ input_hash, input_hash, cache_namespace)

/-! ### An injective digest

`generate_cache_key`'s digest is abstract; to instantiate theorems about
it on concrete inputs we build one concrete injective digest
`digestW : CacheData → String`, via an injective encoding into `ℕ`
followed by the decimal representation. -/

/-- Decimal digit list of `n`, most significant first: the recursion that
`Nat.toDigitsCore` unfolds to for base 10. -/
def digitsRep (n : ℕ) : List Char :=
  if n < 10 then [Nat.digitChar n]
  else digitsRep (n / 10) ++ [Nat.digitChar (n % 10)]
decreasing_by exact Nat.div_lt_self (by omega) (by omega)

/-- Injective encoding of an integer into `ℕ`. -/
def encInt : ℤ → ℕ
  | .ofNat n => 2 * n
  | .negSucc n => 2 * n + 1

/-- Injective encoding of an optional value. -/
def encOpt (f : α → ℕ) : Option α → ℕ
  | none => 0
  | some a => f a + 1

/-- Injective encoding of a list. -/
def encList (f : α → ℕ) : List α → ℕ
  | [] => 0
  | x :: xs => Nat.pair (f x) (encList f xs) + 1

/-- Injective encoding of a string. -/
def encString (s : String) : ℕ := encList Char.toNat s.data

/-- Injective encoding of a rational. -/
def encRat (q : ℚ) : ℕ := Nat.pair (encInt q.num) q.den

/-- Injective encoding of a context chunk (all five fields). -/
def encChunk (ch : ContextChunk) : ℕ :=
  Nat.pair (encString ch.text) (Nat.pair (encOpt encString ch.source_id)
    (Nat.pair (encOpt encInt ch.rank) (Nat.pair (encOpt encRat ch.score)
      (encList (fun p => Nat.pair (encString p.1) (encString p.2)) ch.metadata))))

/-- Injective encoding of the digest payload. -/
def encCacheData (d : CacheData) : ℕ :=
  Nat.pair (encString d.query)
    (Nat.pair (encList encChunk d.context_chunks) (encString d.response))

/-- A concrete injective digest: decimal representation of the payload
encoding. -/
def digestW (d : CacheData) : String := Nat.repr (encCacheData d)

/-! ### Concrete inputs used by counterexamples and witnesses -/

/-- An input with an empty response and one valid context chunk (the
spec's own scenario, §8): triggers `EMPTY_ANSWER` only. -/
def inputEmptyResponse : CanonicalEvaluation :=
  { query := "What is Python?", response := "",
    context_chunks := [{ text := "a sufficiently long context chunk" }] }

/-- A clean input: no Stage-1 issue, so Stage-1 confidence is 0.6 and the
pipeline escalates to Stage 2 at the default threshold 0.80. -/
def inputClean : CanonicalEvaluation :=
  { query := "What is Python?",
    response := "Python is a high level programming language.",
    context_chunks :=
      [{ text := "Python is a language created by Guido van Rossum." }] }

/-- An input whose only context chunk carries the score 0.0. -/
def inputZeroScore : CanonicalEvaluation :=
  { query := "What is Python?",
    response := "Python is a high level programming language.",
    context_chunks :=
      [{ text := "Python is a language created by Guido van Rossum.",
         score := some 0 }] }

/-- The `EMPTY_ANSWER` issue literal, as Stage 1 emits it. -/
def issueEmptyAnswer : Issue :=
  { code := "EMPTY_ANSWER", severity := "P0",
    message := "Response is empty or too short (<10 chars)" }

/-- The `NO_CONTEXT` issue literal, as Stage 1 emits it. -/
def issueNoContext : Issue :=
  { code := "NO_CONTEXT", severity := "P0",
    message := "No valid context chunks provided" }

/-- Metrics in maximal disagreement: variance 0.25 > 0.15. -/
def metricsDisagree : Metrics :=
  { faithfulness := some 1, answer_relevancy := some 0,
    context_precision := some 1, context_recall := some 0 }

/-- Metrics with variance 0.0625 (inside the 0.10 band that only
router.py has): two at 1.0, two at 0.5, mean 0.75. -/
def metricsSplit : Metrics :=
  { faithfulness := some 1, answer_relevancy := some 1,
    context_precision := some 0.5, context_recall := some 0.5 }

/-- Two single-chunk lists for the cache-key claims: identical chunks
except for the per-chunk `metadata` mapping. -/
def chunkPlain : ContextChunk :=
  { text := "Python is a language created by Guido van Rossum." }

/-- Same chunk with a non-empty metadata mapping. -/
def chunkWithMeta : ContextChunk :=
  { text := "Python is a language created by Guido van Rossum.",
    metadata := [("source_url", "https://python.org")] }

/-- A second, distinct chunk, for the permutation part of the cache-key
claim. -/
def chunkOther : ContextChunk :=
  { text := "Guido van Rossum began working on Python in the late 1980s." }

/-- The digest payload built by `generate_cache_key` for the metadata-free
chunk. -/
def cacheDataPlain : CacheData :=
  { query := "What is Python?", context_chunks := [chunkPlain],
    response := "Python is a high level programming language." }

/-- The same payload with the chunk carrying a metadata entry. -/
def cacheDataWithMeta : CacheData :=
  { query := "What is Python?", context_chunks := [chunkWithMeta],
    response := "Python is a high level programming language." }

/-- Same as `inputZeroScore` but with a truthy chunk score 0.2 < 0.5. -/
def inputLowScore : CanonicalEvaluation :=
  { query := "What is Python?",
    response := "Python is a high level programming language.",
    context_chunks :=
      [{ text := "Python is a language created by Guido van Rossum.",
         score := some 0.2 }] }

/-! ## Helper lemmas: severity accumulation -/

theorem severityRank_le_three (s : String) : severityRank s ≤ 3 := by
  unfold severityRank; split_ifs <;> omega

theorem severityRank_eq_zero_iff (s : String) : severityRank s = 0 ↔ s = "P0" := by
  unfold severityRank; split_ifs with h₀ h₁ h₂ <;> simp_all

theorem upgrade_severity_rank_le_left (c n : String) :
    severityRank (upgrade_severity c n) ≤ severityRank c := by
  unfold upgrade_severity; split_ifs with h <;> omega

theorem upgrade_severity_rank_le_right (c n : String) :
    severityRank (upgrade_severity c n) ≤ severityRank n := by
  unfold upgrade_severity; split_ifs with h <;> omega

theorem severityFold_rank_le_init (l : List String) (init : String) :
    severityRank (l.foldl upgrade_severity init) ≤ severityRank init := by
  induction l generalizing init with
  | nil => exact le_refl _
  | cons a l ih =>
    exact le_trans (ih (upgrade_severity init a)) (upgrade_severity_rank_le_left init a)

theorem severityFold_rank_le_mem (l : List String) (init s : String) (h : s ∈ l) :
    severityRank (l.foldl upgrade_severity init) ≤ severityRank s := by
  induction l generalizing init with
  | nil => cases h
  | cons a l ih =>
    rcases List.mem_cons.1 h with rfl | hmem
    · exact le_trans (severityFold_rank_le_init l (upgrade_severity init s))
        (upgrade_severity_rank_le_right init s)
    · exact ih (upgrade_severity init a) hmem

theorem severityFold_p0_absorbing (l : List String) :
    l.foldl upgrade_severity "P0" = "P0" := by
  induction l with
  | nil => rfl
  | cons a l ih =>
    have : upgrade_severity "P0" a = "P0" := by
      unfold upgrade_severity
      rw [if_neg]
      simp [severityRank]
    rw [List.foldl_cons, this, ih]

theorem severityFold_of_mem_p0 (l : List String) (init : String)
    (h : "P0" ∈ l) : l.foldl upgrade_severity init = "P0" := by
  have hle := severityFold_rank_le_mem l init "P0" h
  have : severityRank "P0" = 0 := rfl
  rw [this, Nat.le_zero] at hle
  exact (severityRank_eq_zero_iff _).1 hle

theorem severityFold_mem_set (l : List String) (init : String)
    (hinit : init = "P0" ∨ init = "P1" ∨ init = "P2" ∨ init = "P3") :
    l.foldl upgrade_severity init = "P0" ∨ l.foldl upgrade_severity init = "P1" ∨
      l.foldl upgrade_severity init = "P2" ∨ l.foldl upgrade_severity init = "P3" := by
  induction l generalizing init with
  | nil => exact hinit
  | cons a l ih =>
    refine ih (upgrade_severity init a) ?_
    unfold upgrade_severity
    split_ifs with h
    · have hlt : severityRank a < 3 :=
        lt_of_lt_of_le h (by rcases hinit with rfl | rfl | rfl | rfl <;> simp [severityRank])
      unfold severityRank at hlt
      split_ifs at hlt with h₀ h₁ h₂ <;> simp_all
    · exact hinit

/-- The three result fields of `GatePolicyEngine.evaluate`, unfolded. -/
theorem gate_result_spec (m : Metrics) (policy : Option GatePolicy)
    (issues : List Issue) :
    (GatePolicyEngine.evaluate m policy issues).failure_codes =
      (gateEvents m policy issues).map Prod.fst ∧
    (GatePolicyEngine.evaluate m policy issues).severity =
      ((gateEvents m policy issues).map Prod.snd).foldl upgrade_severity "P3" ∧
    (GatePolicyEngine.evaluate m policy issues).decision =
      (if (GatePolicyEngine.evaluate m policy issues).severity = "P0" then "fail"
       else if (GatePolicyEngine.evaluate m policy issues).severity = "P1" then "fail"
       else if (GatePolicyEngine.evaluate m policy issues).failure_codes ≠ [] then "warn"
       else "pass") := by
  refine ⟨rfl, ?_, rfl⟩
  simp [GatePolicyEngine.evaluate, List.foldl_map]

theorem gate_severity_mem_set (m : Metrics) (policy : Option GatePolicy)
    (issues : List Issue) :
    (GatePolicyEngine.evaluate m policy issues).severity = "P0" ∨
    (GatePolicyEngine.evaluate m policy issues).severity = "P1" ∨
    (GatePolicyEngine.evaluate m policy issues).severity = "P2" ∨
    (GatePolicyEngine.evaluate m policy issues).severity = "P3" := by
  rw [(gate_result_spec m policy issues).2.1]
  exact severityFold_mem_set _ _ (by simp)

/-! ## Helper lemmas: string append cancellation and `Nat.repr` injectivity -/

theorem string_data_append (a b : String) : (a ++ b).data = a.data ++ b.data := rfl

theorem string_append_cancel_left {a b c : String} (h : a ++ b = a ++ c) : b = c := by
  have h' := congrArg String.data h
  rw [string_data_append, string_data_append] at h'
  exact String.ext (List.append_cancel_left h')

theorem string_append_cancel_right {a b c : String} (h : a ++ c = b ++ c) : a = b := by
  have h' := congrArg String.data h
  rw [string_data_append, string_data_append] at h'
  exact String.ext (List.append_cancel_right h')

theorem digitChar_toNat {d : ℕ} (h : d < 10) : (Nat.digitChar d).toNat = 48 + d := by
  interval_cases d <;> rfl

theorem toDigitsCore_eq_digitsRep (fuel n : ℕ) (ds : List Char) (h : n < fuel) :
    Nat.toDigitsCore 10 fuel n ds = digitsRep n ++ ds := by
  induction fuel generalizing n ds with
  | zero => omega
  | succ fuel ih =>
    show (if n / 10 = 0 then Nat.digitChar (n % 10) :: ds
          else Nat.toDigitsCore 10 fuel (n / 10) (Nat.digitChar (n % 10) :: ds)) = _
    by_cases h0 : n / 10 = 0
    · have hn : n < 10 := (Nat.div_eq_zero_iff (by omega)).1 h0
      rw [if_pos h0, digitsRep, if_pos hn, Nat.mod_eq_of_lt hn]
      rfl
    · have hn : ¬ n < 10 := fun hlt => h0 ((Nat.div_eq_zero_iff (by omega)).2 hlt)
      have hdiv : n / 10 < fuel :=
        lt_of_lt_of_le (Nat.div_lt_self (by omega) (by omega)) (Nat.lt_succ_iff.1 h)
      rw [if_neg h0, ih (n / 10) _ hdiv]
      conv_rhs => rw [digitsRep]
      rw [if_neg hn, List.append_assoc]
      rfl

theorem toDigits_eq_digitsRep (n : ℕ) : Nat.toDigits 10 n = digitsRep n := by
  unfold Nat.toDigits
  rw [toDigitsCore_eq_digitsRep (n + 1) n [] (Nat.lt_succ_self n), List.append_nil]

theorem digitsRep_foldl (n a : ℕ) :
    (digitsRep n).foldl (fun acc ch => 10 * acc + (ch.toNat - 48)) a =
      a * 10 ^ (digitsRep n).length + n := by
  induction n using Nat.strong_induction_on generalizing a with
  | _ n ih =>
    by_cases h : n < 10
    · rw [digitsRep, if_pos h]
      simp [digitChar_toNat h]
      omega
    · rw [digitsRep, if_neg h, List.foldl_append,
        ih (n / 10) (Nat.div_lt_self (by omega) (by omega)) a]
      simp only [List.foldl_cons, List.foldl_nil, List.length_append,
        List.length_cons, List.length_nil, digitChar_toNat (Nat.mod_lt n (by omega))]
      rw [pow_succ]
      have hq : a * 10 ^ (digitsRep (n / 10)).length * 10 =
          a * (10 ^ (digitsRep (n / 10)).length * 10) := by ring
      omega

theorem digitsRep_injective : Function.Injective digitsRep := by
  intro m n h
  have hm := digitsRep_foldl m 0
  have hn := digitsRep_foldl n 0
  rw [h] at hm
  simp only [Nat.zero_mul, Nat.zero_add] at hm hn
  omega

theorem natRepr_injective : Function.Injective Nat.repr := by
  intro m n h
  have h' : Nat.toDigits 10 m = Nat.toDigits 10 n := congrArg String.data h
  rw [toDigits_eq_digitsRep, toDigits_eq_digitsRep] at h'
  exact digitsRep_injective h'

/-! ## Helper lemmas: injectivity of the concrete digest -/

theorem encInt_injective : Function.Injective encInt := by
  intro a b h
  cases a <;> cases b <;> simp [encInt] at h ⊢ <;> omega

theorem encOpt_injective {f : α → ℕ} (hf : Function.Injective f) :
    Function.Injective (encOpt f) := by
  intro a b h
  cases a <;> cases b <;> simp [encOpt] at h ⊢
  exact hf h

theorem encList_injective {f : α → ℕ} (hf : Function.Injective f) :
    Function.Injective (encList f) := by
  intro l₁ l₂ h
  induction l₁ generalizing l₂ with
  | nil => cases l₂ with
    | nil => rfl
    | cons b bs => simp [encList] at h
  | cons a as ih =>
    cases l₂ with
    | nil => simp [encList] at h
    | cons b bs =>
      simp only [encList, Nat.add_right_cancel_iff] at h
      obtain ⟨h₁, h₂⟩ := Nat.pair_eq_pair.1 h
      rw [hf h₁, ih h₂]

theorem charToNat_injective : Function.Injective Char.toNat :=
  fun _ _ h => Char.eq_of_val_eq (UInt32.ext h)

theorem encString_injective : Function.Injective encString :=
  fun _ _ h => String.ext (encList_injective charToNat_injective h)

theorem encRat_injective : Function.Injective encRat := by
  intro p q h
  obtain ⟨h₁, h₂⟩ := Nat.pair_eq_pair.1 h
  exact Rat.ext (encInt_injective h₁) h₂

theorem encChunk_injective : Function.Injective encChunk := by
  intro a b h
  unfold encChunk at h
  obtain ⟨h₁, h₂⟩ := Nat.pair_eq_pair.1 h
  obtain ⟨h₃, h₄⟩ := Nat.pair_eq_pair.1 h₂
  obtain ⟨h₅, h₆⟩ := Nat.pair_eq_pair.1 h₄
  obtain ⟨h₇, h₈⟩ := Nat.pair_eq_pair.1 h₆
  cases a; cases b
  simp only [ContextChunk.mk.injEq]
  refine ⟨encString_injective h₁, encOpt_injective encString_injective h₃,
    encOpt_injective encInt_injective h₅, encOpt_injective encRat_injective h₇,
    encList_injective ?_ h₈⟩
  intro p q hpq
  obtain ⟨hp₁, hp₂⟩ := Nat.pair_eq_pair.1 hpq
  exact Prod.ext (encString_injective hp₁) (encString_injective hp₂)

theorem encCacheData_injective : Function.Injective encCacheData := by
  intro a b h
  unfold encCacheData at h
  obtain ⟨h₁, h₂⟩ := Nat.pair_eq_pair.1 h
  obtain ⟨h₃, h₄⟩ := Nat.pair_eq_pair.1 h₂
  cases a; cases b
  simp only [CacheData.mk.injEq]
  exact ⟨encString_injective h₁, encList_injective encChunk_injective h₃,
    encString_injective h₄⟩

theorem digestW_injective : Function.Injective digestW :=
  fun _ _ h => encCacheData_injective (natRepr_injective h)

/-! ## Claims C3, C4, C5 -/

/-- Claim C3, counterexample: at metrics with variance 0.25 > 0.15 and
confidence 0.9 at or above the threshold 0.80, `should_escalate` from
`small_model` returns `should_escalate = false` — the claim asserts it
returns `true` for every confidence value. -/
theorem c3_counterexample :
    metricVariance metricsDisagree > (0.15 : ℚ) ∧
    (0.80 : ℚ) ≤ (0.9 : ℚ) ∧
    (should_escalate (0.80 : ℚ) metricsDisagree "small_model"
      (0.9 : ℚ)).should_escalate = false :=
  of_decide_eq_true (by with_unfolding_all rfl)

/-- Claim C3 (amended): metric disagreement (variance > 0.15) forces
escalation from `small_model` only below the confidence threshold — the
router checks `confidence >= threshold` first, so at or above the
threshold it stops regardless of the variance; below the threshold it
escalates with the disagreement reason. -/
theorem c3_small_model_escalation (thr conf : ℚ) (m : Metrics)
    (hvar : metricVariance m > (0.15 : ℚ)) :
    (conf < thr →
      (should_escalate thr m "small_model" conf).should_escalate = true ∧
      (should_escalate thr m "small_model" conf).reason =
        "Metric disagreement detected, escalating to large model") ∧
    (thr ≤ conf →
      (should_escalate thr m "small_model" conf).should_escalate = false) := by
  have hdis : hasMetricDisagreement m = true := by
    unfold hasMetricDisagreement
    exact decide_eq_true hvar
  constructor
  · intro h
    unfold should_escalate
    rw [if_neg (by decide), if_pos rfl, if_neg (not_le.2 h), if_pos hdis]
    exact ⟨rfl, rfl⟩
  · intro h
    unfold should_escalate
    rw [if_neg (by decide), if_pos rfl, if_pos h]

/-- Claim C3, witness for the amended theorem at concrete inputs. -/
theorem c3_small_model_escalation_witness :
    metricVariance metricsDisagree > (0.15 : ℚ) ∧
    (0.5 : ℚ) < (0.80 : ℚ) ∧
    (should_escalate (0.80 : ℚ) metricsDisagree "small_model"
      (0.5 : ℚ)).should_escalate = true :=
  ⟨of_decide_eq_true (by with_unfolding_all rfl),
   of_decide_eq_true (by with_unfolding_all rfl),
   ((c3_small_model_escalation (0.80 : ℚ) (0.5 : ℚ) metricsDisagree
      (of_decide_eq_true (by with_unfolding_all rfl))).1
     (of_decide_eq_true (by with_unfolding_all rfl))).1⟩

/-- Claim C4, counterexample: at two metrics of 1.0 and two of 0.5 the
variance is 0.0625, where `MultiStageEvaluationPipeline._calculate_confidence`
gives 0.7 but the function stated by the claim (and computed by
`ConfidenceRouter.calculate_confidence`) gives 0.8 — the two
implementations are not the same function. -/
theorem c4_counterexample :
    pipeline_calculate_confidence metricsSplit ≠ specCalculateConfidence metricsSplit :=
  of_decide_eq_true (by with_unfolding_all rfl)

/-- Claim C4 (amended): `ConfidenceRouter.calculate_confidence` computes
exactly the stated function (variance bands 0.9/0.8/0.7/0.5 plus the
+0.1 boost capped at 1.0 for mean > 0.9 or < 0.3);
`MultiStageEvaluationPipeline._calculate_confidence` does not (it uses
bands 0.9/0.7/0.4 and no boost). -/
theorem c4_router_matches_spec (m : Metrics) :
    calculate_confidence m = specCalculateConfidence m := by
  simp only [calculate_confidence, specCalculateConfidence]
  split_ifs <;> first | rfl | exact min_comm _ _

/-- Claim C5, counterexample: on an input with an empty response (a P0
issue) `MultiStageEvaluationPipeline.stage_1_deterministic` returns
confidence 0.3, not the claimed 1.0. -/
theorem c5_counterexample :
    ((stage_1_deterministic tcFallback inputEmptyResponse).issues.any
      (fun i => i.severity == "P0")) = true ∧
    (stage_1_deterministic tcFallback inputEmptyResponse).confidence ≠ 1 :=
  of_decide_eq_true (by with_unfolding_all rfl)

/-- Claim C5 (amended): the two Stage-1 implementations disagree.
`DeterministicChecker.check` follows the claimed policy (1.0 with a P0
issue, 0.5 with only non-P0 issues, 0.6 with no issue), while
`MultiStageEvaluationPipeline.stage_1_deterministic` returns 0.3 whenever
any issue exists — P0 included — and 0.6 otherwise. -/
theorem c5_stage1_confidence (tc : String → ℕ) (c : CanonicalEvaluation) :
    ((DeterministicChecker.check tc c).issues.any
        (fun i => i.severity == "P0") = true →
      (DeterministicChecker.check tc c).confidence = 1) ∧
    ((DeterministicChecker.check tc c).issues.any
        (fun i => i.severity == "P0") = false →
      (DeterministicChecker.check tc c).issues ≠ [] →
      (DeterministicChecker.check tc c).confidence = 0.5) ∧
    ((DeterministicChecker.check tc c).issues = [] →
      (DeterministicChecker.check tc c).confidence = 0.6) ∧
    ((stage_1_deterministic tc c).issues ≠ [] →
      (stage_1_deterministic tc c).confidence = 0.3) ∧
    ((stage_1_deterministic tc c).issues = [] →
      (stage_1_deterministic tc c).confidence = 0.6) := by
  have hci : (DeterministicChecker.check tc c).issues = stage1Issues tc "128000" c := rfl
  have hcc : (DeterministicChecker.check tc c).confidence =
      (if (stage1Issues tc "128000" c).any (fun i => i.severity == "P0") then (1.0 : ℚ)
       else if stage1Issues tc "128000" c = [] then (0.6 : ℚ) else (0.5 : ℚ)) := rfl
  have hpi : (stage_1_deterministic tc c).issues = stage1Issues tc "128K" c := rfl
  have hpc : (stage_1_deterministic tc c).confidence =
      (if stage1Issues tc "128K" c = [] then (0.6 : ℚ) else (0.3 : ℚ)) := rfl
  refine ⟨?_, ?_, ?_, ?_, ?_⟩
  · intro h
    rw [hci] at h
    rw [hcc, if_pos h]
    norm_num
  · intro h h'
    rw [hci] at h h'
    rw [hcc, if_neg (by simp [h]), if_neg h']
  · intro h
    rw [hci] at h
    rw [hcc, if_neg (by simp [h]), if_pos h]
  · intro h
    rw [hpi] at h
    rw [hpc, if_neg h]
  · intro h
    rw [hpi] at h
    rw [hpc, if_pos h]

/-- Claim C5, witness for the amended theorem: on the empty-response
input the checker reports 1.0 and the pipeline variant 0.3. -/
theorem c5_stage1_confidence_witness :
    (DeterministicChecker.check tcFallback inputEmptyResponse).issues.any
      (fun i => i.severity == "P0") = true ∧
    (DeterministicChecker.check tcFallback inputEmptyResponse).confidence = 1 ∧
    (stage_1_deterministic tcFallback inputEmptyResponse).issues ≠ [] ∧
    (stage_1_deterministic tcFallback inputEmptyResponse).confidence = 0.3 :=
  ⟨of_decide_eq_true (by with_unfolding_all rfl),
   (c5_stage1_confidence tcFallback inputEmptyResponse).1
     (of_decide_eq_true (by with_unfolding_all rfl)),
   of_decide_eq_true (by with_unfolding_all rfl),
   (c5_stage1_confidence tcFallback inputEmptyResponse).2.2.2.1
     (of_decide_eq_true (by with_unfolding_all rfl))⟩

/-! ## Claims C6, C7 -/

/-- Claim C6: `GatePolicyEngine.evaluate` fails exactly when the final
severity is P0 or P1; otherwise it warns exactly when the failure-code
list is non-empty and passes otherwise; and with no policy the result is
independent of the metrics, the severity being the upgrade-fold of the
Stage-1 issue severities alone. -/
theorem c6_gate_decision (m m' : Metrics) (policy : Option GatePolicy)
    (issues : List Issue) :
    ((GatePolicyEngine.evaluate m policy issues).decision = "fail" ↔
      ((GatePolicyEngine.evaluate m policy issues).severity = "P0" ∨
       (GatePolicyEngine.evaluate m policy issues).severity = "P1")) ∧
    (¬((GatePolicyEngine.evaluate m policy issues).severity = "P0" ∨
        (GatePolicyEngine.evaluate m policy issues).severity = "P1") →
      (((GatePolicyEngine.evaluate m policy issues).decision = "warn" ↔
        (GatePolicyEngine.evaluate m policy issues).failure_codes ≠ []) ∧
       ((GatePolicyEngine.evaluate m policy issues).decision = "pass" ↔
        (GatePolicyEngine.evaluate m policy issues).failure_codes = []))) ∧
    GatePolicyEngine.evaluate m none issues = GatePolicyEngine.evaluate m' none issues ∧
    (GatePolicyEngine.evaluate m none issues).severity =
      (issues.map Issue.severity).foldl upgrade_severity "P3" := by
  have hd := (gate_result_spec m policy issues).2.2
  refine ⟨?_, ?_, rfl, ?_⟩
  · by_cases hP : (GatePolicyEngine.evaluate m policy issues).severity = "P0" ∨
        (GatePolicyEngine.evaluate m policy issues).severity = "P1"
    · rcases hP with h | h
      · rw [if_pos h] at hd
        rw [hd]
        exact ⟨fun _ => Or.inl h, fun _ => rfl⟩
      · rw [h] at hd
        simp at hd
        rw [hd]
        exact ⟨fun _ => Or.inr h, fun _ => rfl⟩
    · push_neg at hP
      obtain ⟨h0, h1⟩ := hP
      rw [if_neg h0, if_neg h1] at hd
      constructor
      · intro hf
        exfalso
        by_cases hc : (GatePolicyEngine.evaluate m policy issues).failure_codes ≠ []
        · rw [if_pos hc] at hd
          rw [hd] at hf
          exact absurd hf (by decide)
        · rw [if_neg hc] at hd
          rw [hd] at hf
          exact absurd hf (by decide)
      · intro hor
        rcases hor with h | h
        · exact absurd h h0
        · exact absurd h h1
  · intro hP
    push_neg at hP
    obtain ⟨h0, h1⟩ := hP
    rw [if_neg h0, if_neg h1] at hd
    by_cases hc : (GatePolicyEngine.evaluate m policy issues).failure_codes ≠ []
    · rw [if_pos hc] at hd
      rw [hd]
      exact ⟨⟨fun _ => hc, fun _ => rfl⟩,
        ⟨fun hw => absurd hw (by decide), fun hcc => absurd hcc hc⟩⟩
    · rw [if_neg hc] at hd
      rw [hd]
      push_neg at hc
      exact ⟨⟨fun hw => absurd hw (by decide), fun hne => absurd hc hne⟩,
        ⟨fun _ => hc, fun _ => rfl⟩⟩
  · rw [(gate_result_spec m none issues).2.1]
    congr 1
    simp [gateEvents, List.map_map, Function.comp_def]

/-- Claim C6, witness: with no policy and no issues the gate passes with
severity P3 and no failure codes. -/
theorem c6_gate_decision_witness :
    ¬((GatePolicyEngine.evaluate {} none []).severity = "P0" ∨
      (GatePolicyEngine.evaluate {} none []).severity = "P1") ∧
    ((GatePolicyEngine.evaluate {} none []).decision = "pass" ↔
      (GatePolicyEngine.evaluate {} none []).failure_codes = []) :=
  ⟨of_decide_eq_true (by with_unfolding_all rfl),
   ((c6_gate_decision {} {} none []).2.1
     (of_decide_eq_true (by with_unfolding_all rfl))).2⟩

/-- Claim C7: severity accumulation in `GatePolicyEngine.evaluate` is
upgrade-only — the final severity is at least as critical (in the rank
order P0 < P1 < P2 < P3) as every absorbed severity, an absorbed P0
forces the final severity P0, and from P0 no sequence of further upgrades
can lower it. -/
theorem c7_severity_upgrade_only (m : Metrics) (policy : Option GatePolicy)
    (issues : List Issue) (s : String)
    (hs : s ∈ (gateEvents m policy issues).map Prod.snd) :
    severityRank (GatePolicyEngine.evaluate m policy issues).severity ≤
      severityRank s ∧
    ("P0" ∈ (gateEvents m policy issues).map Prod.snd →
      (GatePolicyEngine.evaluate m policy issues).severity = "P0") ∧
    (∀ rest : List String, rest.foldl upgrade_severity "P0" = "P0") := by
  rw [(gate_result_spec m policy issues).2.1]
  exact ⟨severityFold_rank_le_mem _ _ _ hs,
    fun h => severityFold_of_mem_p0 _ _ h,
    severityFold_p0_absorbing⟩

/-- Claim C7, witness: a single P0 issue, no policy. -/
theorem c7_severity_upgrade_only_witness :
    "P0" ∈ (gateEvents {} none [issueEmptyAnswer]).map Prod.snd ∧
    severityRank (GatePolicyEngine.evaluate {} none [issueEmptyAnswer]).severity ≤
      severityRank "P0" ∧
    (GatePolicyEngine.evaluate {} none [issueEmptyAnswer]).severity = "P0" :=
  ⟨of_decide_eq_true (by with_unfolding_all rfl),
   (c7_severity_upgrade_only {} none [issueEmptyAnswer] "P0"
     (of_decide_eq_true (by with_unfolding_all rfl))).1,
   (c7_severity_upgrade_only {} none [issueEmptyAnswer] "P0"
     (of_decide_eq_true (by with_unfolding_all rfl))).2.1
     (of_decide_eq_true (by with_unfolding_all rfl))⟩

/-! ## Claims C1, C2 -/

/-- The Stage-1 issue list contains a P0 issue whenever the empty-answer
or no-context trigger fires. -/
theorem stage1Issues_mem_p0 (tc : String → ℕ) (limitText : String)
    (c : CanonicalEvaluation) (h : emptyAnswerTrigger c ∨ noContextTrigger c) :
    ∃ i ∈ stage1Issues tc limitText c, i.severity = "P0" := by
  unfold stage1Issues
  rcases h with h | h
  · refine ⟨issueEmptyAnswer, ?_, rfl⟩
    rw [if_pos h]
    exact List.mem_append_left _ (List.mem_append_left _ (List.mem_cons_self _ _))
  · refine ⟨issueNoContext, ?_, rfl⟩
    rw [if_pos h]
    exact List.mem_append_left _ (List.mem_append_right _ (List.mem_cons_self _ _))

/-- A P0 issue in the Stage-1 issues forces the gate to severity P0 and
decision fail, for every metrics map and (possibly absent) policy. -/
theorem gate_p0_fail (m : Metrics) (policy : Option GatePolicy)
    (issues : List Issue) (i : Issue) (hi : i ∈ issues)
    (hsev : i.severity = "P0") :
    (GatePolicyEngine.evaluate m policy issues).severity = "P0" ∧
    (GatePolicyEngine.evaluate m policy issues).decision = "fail" := by
  have hmem : "P0" ∈ (gateEvents m policy issues).map Prod.snd :=
    List.mem_map.2 ⟨(i.code, i.severity),
      List.mem_append_left _ (List.mem_map.2 ⟨i, hi, rfl⟩), hsev⟩
  have hsg : (GatePolicyEngine.evaluate m policy issues).severity = "P0" := by
    rw [(gate_result_spec m policy issues).2.1]
    exact severityFold_of_mem_p0 _ _ hmem
  have hd := (gate_result_spec m policy issues).2.2
  rw [if_pos hsg] at hd
  exact ⟨hsg, hd⟩

/-- Claim C1, counterexample: on the empty-response input the pipeline
does stop at `stage == deterministic`, but `totalCost` is the Stage-1
`cost_per_query` metric — 11 tokens priced at the default `gpt-4o` rate,
11/400000 dollars — not 0.  (Any token counter giving the non-empty query
a positive count yields a positive cost; the documented `len/4` fallback
estimator is used here.) -/
theorem c1_counterexample :
    emptyAnswerTrigger inputEmptyResponse ∧
    (evaluate tcFallback (0.80 : ℚ) "gpt-4o-mini" "gpt-4o"
      inputEmptyResponse).stage = "deterministic" ∧
    (evaluate tcFallback (0.80 : ℚ) "gpt-4o-mini" "gpt-4o"
      inputEmptyResponse).total_cost ≠ 0 :=
  of_decide_eq_true (by with_unfolding_all rfl)

/-- Claim C1 (amended): for every input whose response is empty or
shorter than 10 trimmed characters, or whose context chunks are all too
short, the pipeline stops at `stage == deterministic` with confidence
1.0, the gate decision is fail with severity P0 for every metrics map
and policy, and `totalCost` equals the Stage-1 `cost_per_query` metric
(the estimated cost of the evaluated interaction — zero only when the
input carries no tokens, not in general). -/
theorem c1_p0_early_exit (tc : String → ℕ) (thr : ℚ) (small large : String)
    (c : CanonicalEvaluation) (m : Metrics) (policy : Option GatePolicy)
    (h : emptyAnswerTrigger c ∨ noContextTrigger c) :
    (evaluate tc thr small large c).stage = "deterministic" ∧
    (evaluate tc thr small large c).confidence = 1 ∧
    (evaluate tc thr small large c).total_cost =
      (stage_1_deterministic tc c).metrics.cost_per_query.getD 0 ∧
    (GatePolicyEngine.evaluate m policy
      (evaluate tc thr small large c).issues).decision = "fail" ∧
    (GatePolicyEngine.evaluate m policy
      (evaluate tc thr small large c).issues).severity = "P0" := by
  obtain ⟨i, hi, hsev⟩ := stage1Issues_mem_p0 tc "128K" c h
  have hP0 : (stage_1_deterministic tc c).has_p0_failures = true := by
    simp only [DeterministicResult.has_p0_failures, List.any_eq_true]
    exact ⟨i, hi, by simp [hsev]⟩
  have hev : evaluate tc thr small large c =
      build_result (stage_1_deterministic tc c) "deterministic" none none 1 := by
    simp only [evaluate]
    rw [if_pos hP0]
  obtain ⟨hsg, hdg⟩ := gate_p0_fail m policy (stage1Issues tc "128K" c) i hi hsev
  rw [hev]
  refine ⟨rfl, rfl, rfl, ?_, ?_⟩
  · rw [show (build_result (stage_1_deterministic tc c) "deterministic"
      none none 1).issues = stage1Issues tc "128K" c from rfl]
    exact hdg
  · rw [show (build_result (stage_1_deterministic tc c) "deterministic"
      none none 1).issues = stage1Issues tc "128K" c from rfl]
    exact hsg

/-- Claim C1, witness for the amended theorem on the empty-response
input. -/
theorem c1_p0_early_exit_witness :
    (emptyAnswerTrigger inputEmptyResponse ∨ noContextTrigger inputEmptyResponse) ∧
    (evaluate tcFallback (0.80 : ℚ) "gpt-4o-mini" "gpt-4o"
      inputEmptyResponse).stage = "deterministic" ∧
    (GatePolicyEngine.evaluate {} none (evaluate tcFallback (0.80 : ℚ)
      "gpt-4o-mini" "gpt-4o" inputEmptyResponse).issues).decision = "fail" :=
  ⟨Or.inl (of_decide_eq_true (by with_unfolding_all rfl)),
   (c1_p0_early_exit tcFallback (0.80 : ℚ) "gpt-4o-mini" "gpt-4o"
     inputEmptyResponse {} none
     (Or.inl (of_decide_eq_true (by with_unfolding_all rfl)))).1,
   (c1_p0_early_exit tcFallback (0.80 : ℚ) "gpt-4o-mini" "gpt-4o"
     inputEmptyResponse {} none
     (Or.inl (of_decide_eq_true (by with_unfolding_all rfl)))).2.2.2.1⟩

/-- Claim C2, counterexample: on a clean input the pipeline stops at
Stage 2, whose cost computation bills `totalTokens` input tokens plus 500
output tokens, yet the returned `tokens_used` is the Stage-1 token total
alone — token usage does not accumulate across executed stages. -/
theorem c2_tokens_counterexample :
    (evaluate tcFallback (0.80 : ℚ) "gpt-4o-mini" "gpt-4o"
      inputClean).stage = "small_model" ∧
    (evaluate tcFallback (0.80 : ℚ) "gpt-4o-mini" "gpt-4o"
      inputClean).tokens_used ≠
      (stage_1_deterministic tcFallback inputClean).metrics.total_tokens.getD 0 +
        (totalTokens tcFallback inputClean + 500) :=
  of_decide_eq_true (by with_unfolding_all rfl)

/-- Claim C2 (amended): `totalCost` accumulates additively over exactly
the executed stages (Stage 1 alone, Stage 1+2, or Stage 1+2+3, with the
Stage-1 cost being its `cost_per_query` metric and the Stage-2/3 costs
those of `_calculate_stage_cost`), but `tokensUsed` is always the
Stage-1 token total, regardless of which stages executed. -/
theorem c2_cost_additive (tc : String → ℕ) (thr : ℚ) (small large : String)
    (c : CanonicalEvaluation) :
    ((evaluate tc thr small large c).stage = "deterministic" →
      (evaluate tc thr small large c).total_cost =
        (stage_1_deterministic tc c).metrics.cost_per_query.getD 0) ∧
    ((evaluate tc thr small large c).stage = "small_model" →
      (evaluate tc thr small large c).total_cost =
        (stage_1_deterministic tc c).metrics.cost_per_query.getD 0 +
          calculate_stage_cost tc c small) ∧
    ((evaluate tc thr small large c).stage = "large_model" →
      (evaluate tc thr small large c).total_cost =
        (stage_1_deterministic tc c).metrics.cost_per_query.getD 0 +
          calculate_stage_cost tc c small + calculate_stage_cost tc c large) ∧
    (evaluate tc thr small large c).tokens_used =
      (stage_1_deterministic tc c).metrics.total_tokens.getD 0 := by
  simp only [evaluate]
  split_ifs with h1 h2 h3 <;>
    refine ⟨?_, ?_, ?_, rfl⟩ <;> intro hst <;>
    first
    | rfl
    | simp [build_result] at hst

/-- Claim C2, witness for the amended theorem: a two-stage run whose
total cost is exactly the Stage-1 cost plus the Stage-2 cost. -/
theorem c2_cost_additive_witness :
    (evaluate tcFallback (0.80 : ℚ) "gpt-4o-mini" "gpt-4o"
      inputClean).stage = "small_model" ∧
    (evaluate tcFallback (0.80 : ℚ) "gpt-4o-mini" "gpt-4o"
      inputClean).total_cost =
      (stage_1_deterministic tcFallback inputClean).metrics.cost_per_query.getD 0 +
        calculate_stage_cost tcFallback inputClean "gpt-4o-mini" :=
  ⟨of_decide_eq_true (by with_unfolding_all rfl),
   (c2_cost_additive tcFallback (0.80 : ℚ) "gpt-4o-mini" "gpt-4o" inputClean).2.1
     (of_decide_eq_true (by with_unfolding_all rfl))⟩

/-! ## Claims C8, C9, C10 -/

/-- Claim C8: `generate_cache_key` is deterministic; changing any one of
`policy_version`, `judge_model`, `evaluator_version` (the others fixed)
changes `cache_namespace` while `input_hash` stays constant; and
permuting a duplicate-free chunk list into a different order changes
`input_hash` (given that the digest — a stable serialization under a
collision-free hash — is injective). -/
theorem c8_cache_key_sensitivity (digest : CacheData → String)
    (hinj : Function.Injective digest) (q r : String)
    (chunks chunks' : List ContextChunk) (pv pv' : ℕ) (jm jm' ev ev' : String) :
    generate_cache_key digest q chunks r pv jm ev =
      generate_cache_key digest q chunks r pv jm ev ∧
    (pv ≠ pv' →
      (generate_cache_key digest q chunks r pv jm ev).2.2 ≠
        (generate_cache_key digest q chunks r pv' jm ev).2.2 ∧
      (generate_cache_key digest q chunks r pv jm ev).2.1 =
        (generate_cache_key digest q chunks r pv' jm ev).2.1) ∧
    (jm ≠ jm' →
      (generate_cache_key digest q chunks r pv jm ev).2.2 ≠
        (generate_cache_key digest q chunks r pv jm' ev).2.2 ∧
      (generate_cache_key digest q chunks r pv jm ev).2.1 =
        (generate_cache_key digest q chunks r pv jm' ev).2.1) ∧
    (ev ≠ ev' →
      (generate_cache_key digest q chunks r pv jm ev).2.2 ≠
        (generate_cache_key digest q chunks r pv jm ev').2.2 ∧
      (generate_cache_key digest q chunks r pv jm ev).2.1 =
        (generate_cache_key digest q chunks r pv jm ev').2.1) ∧
    (chunks.Nodup → chunks'.Perm chunks → chunks' ≠ chunks →
      (generate_cache_key digest q chunks' r pv jm ev).2.1 ≠
        (generate_cache_key digest q chunks r pv jm ev).2.1) := by
  refine ⟨rfl, ?_, ?_, ?_, ?_⟩
  · intro hne
    refine ⟨fun heq => ?_, rfl⟩
    have heq' : "schema_v1|eval_v" ++ ev ++ "|policy_" ++ Nat.repr pv ++
        "|judge_" ++ jm = "schema_v1|eval_v" ++ ev ++ "|policy_" ++
        Nat.repr pv' ++ "|judge_" ++ jm := heq
    have hd := congrArg String.data heq'
    simp only [string_data_append, List.append_assoc] at hd
    have h1 := List.append_cancel_left hd
    have h2 := List.append_cancel_left h1
    have h3 := List.append_cancel_left h2
    have h4 := List.append_cancel_right h3
    exact hne (natRepr_injective (String.ext h4))
  · intro hne
    refine ⟨fun heq => ?_, rfl⟩
    have heq' : "schema_v1|eval_v" ++ ev ++ "|policy_" ++ Nat.repr pv ++
        "|judge_" ++ jm = "schema_v1|eval_v" ++ ev ++ "|policy_" ++
        Nat.repr pv ++ "|judge_" ++ jm' := heq
    have hd := congrArg String.data heq'
    simp only [string_data_append, List.append_assoc] at hd
    have h1 := List.append_cancel_left hd
    have h2 := List.append_cancel_left h1
    have h3 := List.append_cancel_left h2
    have h4 := List.append_cancel_left h3
    have h5 := List.append_cancel_left h4
    exact hne (String.ext h5)
  · intro hne
    refine ⟨fun heq => ?_, rfl⟩
    have heq' : "schema_v1|eval_v" ++ ev ++ "|policy_" ++ Nat.repr pv ++
        "|judge_" ++ jm = "schema_v1|eval_v" ++ ev' ++ "|policy_" ++
        Nat.repr pv ++ "|judge_" ++ jm := heq
    have hd := congrArg String.data heq'
    simp only [string_data_append, List.append_assoc] at hd
    have h1 := List.append_cancel_left hd
    have h2 := List.append_cancel_right h1
    exact hne (String.ext h2)
  · intro _hnd _hperm hne heq
    have heq' : digest { query := q, context_chunks := chunks', response := r } =
        digest { query := q, context_chunks := chunks, response := r } := heq
    have h2 := hinj heq'
    simp only [CacheData.mk.injEq] at h2
    exact hne h2.2.1

/-- Claim C8, witness: concrete namespace changes for a policy-version
bump and a hash change for swapping two distinct chunks, under the
concrete injective digest `digestW`. -/
theorem c8_cache_key_sensitivity_witness :
    (1 : ℕ) ≠ 2 ∧
    [chunkPlain, chunkOther].Nodup ∧
    [chunkOther, chunkPlain].Perm [chunkPlain, chunkOther] ∧
    ([chunkOther, chunkPlain] : List ContextChunk) ≠ [chunkPlain, chunkOther] ∧
    (generate_cache_key digestW "q" [chunkPlain, chunkOther] "r" 1
      "gpt-4o-mini" "3").2.2 ≠
      (generate_cache_key digestW "q" [chunkPlain, chunkOther] "r" 2
        "gpt-4o-mini" "3").2.2 ∧
    (generate_cache_key digestW "q" [chunkOther, chunkPlain] "r" 1
      "gpt-4o-mini" "3").2.1 ≠
      (generate_cache_key digestW "q" [chunkPlain, chunkOther] "r" 1
        "gpt-4o-mini" "3").2.1 :=
  ⟨of_decide_eq_true (by with_unfolding_all rfl),
   of_decide_eq_true (by with_unfolding_all rfl),
   of_decide_eq_true (by with_unfolding_all rfl),
   of_decide_eq_true (by with_unfolding_all rfl),
   ((c8_cache_key_sensitivity digestW digestW_injective "q" "r"
      [chunkPlain, chunkOther] [chunkOther, chunkPlain] 1 2
      "gpt-4o-mini" "gpt-4o" "3" "4").2.1
     (of_decide_eq_true (by with_unfolding_all rfl))).1,
   (c8_cache_key_sensitivity digestW digestW_injective "q" "r"
      [chunkPlain, chunkOther] [chunkOther, chunkPlain] 1 2
      "gpt-4o-mini" "gpt-4o" "3" "4").2.2.2.2
     (of_decide_eq_true (by with_unfolding_all rfl))
     (of_decide_eq_true (by with_unfolding_all rfl))
     (of_decide_eq_true (by with_unfolding_all rfl))⟩

/-- Claim C9: the failing input.  Two single-chunk inputs identical in
query, response and every chunk field except the per-chunk `metadata`
mapping; `generate_cache_key` serializes the full `model_dump()` of each
chunk — `metadata` included — so the digest payloads differ and (under
the injective digest `digestW`, standing for the collision-free sha256 of
the serialization) the two `input_hash` values differ, where the spec
requires them to be equal. -/
theorem c9_metadata_counterexample :
    chunkPlain.text = chunkWithMeta.text ∧
    chunkPlain.source_id = chunkWithMeta.source_id ∧
    chunkPlain.rank = chunkWithMeta.rank ∧
    chunkPlain.score = chunkWithMeta.score ∧
    chunkPlain.metadata ≠ chunkWithMeta.metadata ∧
    (generate_cache_key digestW "What is Python?" [chunkPlain]
      "Python is a high level programming language." 1 "gpt-4o-mini" "3").2.1 ≠
      (generate_cache_key digestW "What is Python?" [chunkWithMeta]
        "Python is a high level programming language." 1 "gpt-4o-mini" "3").2.1 := by
  refine ⟨rfl, rfl, rfl, rfl,
    of_decide_eq_true (by with_unfolding_all rfl), fun heq => ?_⟩
  have heq' : digestW cacheDataPlain = digestW cacheDataWithMeta := heq
  exact absurd (digestW_injective heq')
    (of_decide_eq_true (by with_unfolding_all rfl))

/-- Claim C10: the failing input.  Every chunk of `inputZeroScore`
carries the score 0.0, so the claimed mean (0.0) is below 0.5 and the
`low_retrieval_scores` rule should apply — but the source filters chunks
with `if ch.score`, whose Python truthiness drops a 0.0 score, leaving no
scored chunk, so the rule's condition is false and `analyze` returns no
recommendation at all.  With the same chunk scored 0.2 (truthy) the rule
fires and `analyze` returns exactly one `low_retrieval_scores`
recommendation. -/
theorem c10_zero_score_counterexample :
    inputZeroScore.context_chunks ≠ [] ∧
    (∀ ch ∈ inputZeroScore.context_chunks, ch.score = some 0) ∧
    scoredChunks inputZeroScore = [] ∧
    AutoFixEngine.analyze inputZeroScore {} = [] ∧
    AutoFixEngine.analyze inputLowScore {} = ["low_retrieval_scores"] :=
  of_decide_eq_true (by with_unfolding_all rfl)

end Evalkit
